import Mathlib

/-!
# Verification of the ClipAPI embedding service

Shallow embedding of the two source files of the repository:

* `app/models.py` — loads a pretrained CLIP model and processor once at
  module level, and exposes `get_image_embedding` / `get_text_embedding`,
  each of which preprocesses its input, runs the model forward pass inside
  a `torch.no_grad()` block, and returns `tensor.tolist()`.
* `app/routes.py` — two FastAPI handlers: `embed_image` wraps the image
  embedding in `{"embedding": ...}`; `embed_text` parses the JSON body,
  checks Python truthiness of `body.get("text")`, returns
  `{"error": "Text parameter is missing."}` on a falsy value and
  `{"embedding": get_text_embedding(text)}` otherwise.

The pretrained encoder, the tokenizer and the image decoder are third-party
library calls, not code of this repository; they are modelled as the fields
of the `ExternalCLIP` structure below, constrained only by their documented
library contracts (the transformers contract: `get_text_features` on a batch
of n inputs returns a tensor of shape (n, dim); `get_image_features` on one
preprocessed image returns a tensor of shape (1, dim); both are read-only
on the module state when gradient computation is disabled).
-/

namespace ClipAPI

/-- JSON values, as produced by `await request.json()`: the Python decoding
of a JSON document (objects become dicts, numbers become int/float,
`null` becomes `None`). -/
inductive Json where
  | null : Json
  | bool : Bool → Json
  | num : ℚ → Json
  | str : String → Json
  | arr : List Json → Json
  | obj : List (String × Json) → Json

/-- Python truthiness of a decoded JSON value: `None`, `False`, `0`, `""`,
`[]` and `{}` are falsy, everything else is truthy.  This is the test the
source performs with `if not text:`. -/
def falsy : Json → Bool
  | Json.null => true
  | Json.bool b => !b
  | Json.num q => q == 0
  | Json.str s => s == ""
  | Json.arr a => a.isEmpty
  | Json.obj o => o.isEmpty

/-- `body.get(k)`: lookup of a key in a Python dict decoded from JSON
(keys are the first components of the association list); `none` models the
Python `None` returned for a missing key. -/
def pyGet (fields : List (String × Json)) (k : String) : Option Json :=
  (fields.find? (fun p => p.1 == k)).map (fun p => p.2)

/-- Whether a decoded JSON object carries the key `k`. -/
def hasKey (fields : List (String × Json)) (k : String) : Bool :=
  fields.any (fun p => p.1 == k)

/-- Python-level exceptions that the handlers can raise (they are all
uncaught in the source, so they propagate to the server). -/
inductive PyError where
  | jsonDecodeError : PyError
  | attributeError : PyError
  | tokenizerError : PyError
  | imageDecodeError : PyError
  deriving DecidableEq

/-- The process-wide torch state shared by all requests: the autograd
gradient flag toggled by `torch.no_grad()`, and the contents of the
module-level `model` / `processor` objects of `app/models.py`
(abstracted as a list of rationals). -/
structure TorchState where
  gradEnabled : Bool
  modelData : List ℚ

/-- `with torch.no_grad(): ...` — save the gradient flag, run the body
with the flag cleared, restore the saved flag on exit. -/
def noGrad {α : Type} (f : TorchState → α × TorchState) (s : TorchState) :
    α × TorchState :=
  let saved := s.gradEnabled
  let res := f { s with gradEnabled := false }
  (res.1, { res.2 with gradEnabled := saved })

/-- The third-party library surface used by `app/models.py`, together with
its documented contracts.  `tokenize` is `processor(text=[...])` (it raises
on non-string entries but succeeds on every string); `getTextFeatures` is
`model.get_text_features` (on a batch of n tokenized inputs it returns a
tensor of shape (n, dim)); `decodeImage` is `Image.open` on the uploaded
bytes; `processImage` is `processor(images=...)`; `getImageFeatures` is
`model.get_image_features` (shape (1, dim) for a single image).  The two
forward passes leave the torch state untouched when gradient computation is
disabled (the spec: the module state is read-only after initialization). -/
structure ExternalCLIP where
  dim : ℕ
  tokenize : List Json → Except PyError (List (List ℕ))
  getTextFeatures : TorchState → List (List ℕ) → List (List ℚ) × TorchState
  decodeImage : List ℕ → Except PyError (List ℕ)
  processImage : List ℕ → List ℚ
  getImageFeatures : TorchState → List ℚ → List (List ℚ) × TorchState
  tokenize_str : ∀ ts : List String,
    ∃ tb, tokenize (ts.map Json.str) = Except.ok tb ∧ tb.length = ts.length
  textFeatures_rows : ∀ s tb, ((getTextFeatures s tb).1).length = tb.length
  textFeatures_dim : ∀ s tb r, r ∈ (getTextFeatures s tb).1 → r.length = dim
  textFeatures_frame : ∀ s tb, s.gradEnabled = false →
    (getTextFeatures s tb).2 = s
  imageFeatures_rows : ∀ s px, ((getImageFeatures s px).1).length = 1
  imageFeatures_dim : ∀ s px r, r ∈ (getImageFeatures s px).1 → r.length = dim
  imageFeatures_frame : ∀ s px, s.gradEnabled = false →
    (getImageFeatures s px).2 = s

/-- `tensor.tolist()` on a 2-D tensor: a JSON array of arrays of numbers. -/
def tensor2ToJson (t : List (List ℚ)) : Json :=
  Json.arr (t.map (fun row => Json.arr (row.map Json.num)))

/-- `get_text_embedding(text)` of `app/models.py`:
`inputs = processor(text=[text]); with torch.no_grad():
text_embedding = model.get_text_features(inputs); return
text_embedding.tolist()`.  The argument is the raw value taken from the
JSON body (the route forwards it unvalidated). -/
def get_text_embedding (M : ExternalCLIP) (text : Json) (s : TorchState) :
    Except PyError Json × TorchState :=
  match M.tokenize [text] with
  | Except.error e => (Except.error e, s)
  | Except.ok inputs =>
    let res := noGrad (fun st => M.getTextFeatures st inputs) s
    (Except.ok (tensor2ToJson res.1), res.2)

/-- `get_image_embedding(file)` of `app/models.py`:
`image = Image.open(io.BytesIO(await file.read()));
inputs = processor(images=image); with torch.no_grad():
image_embedding = model.get_image_features(inputs);
return image_embedding.tolist()`. -/
def get_image_embedding (M : ExternalCLIP) (fileBytes : List ℕ)
    (s : TorchState) : Except PyError Json × TorchState :=
  match M.decodeImage fileBytes with
  | Except.error e => (Except.error e, s)
  | Except.ok image =>
    let inputs := M.processImage image
    let res := noGrad (fun st => M.getImageFeatures st inputs) s
    (Except.ok (tensor2ToJson res.1), res.2)

/-- The error payload of `routes.py`. -/
def errorPayload : Json :=
  Json.obj [("error", Json.str "Text parameter is missing.")]

/-- `embed_image` of `app/routes.py`:
`return {"embedding": await get_image_embedding(file)}`. -/
def embed_image (M : ExternalCLIP) (fileBytes : List ℕ) (s : TorchState) :
    Except PyError Json × TorchState :=
  let res := get_image_embedding M fileBytes s
  (res.1.map (fun e => Json.obj [("embedding", e)]), res.2)

/-- `embed_text` of `app/routes.py`.  `rawBody = none` models a request
body that `await request.json()` cannot parse (the decode exception is
raised before anything else runs); a non-dict body makes `body.get`
raise `AttributeError`; otherwise `text = body.get("text")`, the falsy
check, and on a truthy value the call to `get_text_embedding(text)`. -/
def embed_text (M : ExternalCLIP) (rawBody : Option Json) (s : TorchState) :
    Except PyError Json × TorchState :=
  match rawBody with
  | none => (Except.error PyError.jsonDecodeError, s)
  | some body =>
    match body with
    | Json.obj fields =>
      match pyGet fields "text" with
      | none => (Except.ok errorPayload, s)
      | some text =>
        if falsy text then (Except.ok errorPayload, s)
        else
          let res := get_text_embedding M text s
          (res.1.map (fun e => Json.obj [("embedding", e)]), res.2)
    | _ => (Except.error PyError.attributeError, s)

/-- Modelled from the spec: FastAPI turns a dict returned normally by a
handler into a JSON response with the default success status code 200,
and an uncaught exception into a generic server error (status 500);
the source declares no explicit status codes. -/
def httpStatusOf : Except PyError Json → ℕ
  | Except.ok _ => 200
  | Except.error _ => 500

/-! ## A concrete conforming library instance, used to evaluate the handlers -/

/-- Whether a decoded JSON value is a string. -/
def isStr : Json → Bool
  | Json.str _ => true
  | _ => false

/-- A small concrete instance of the library contracts (dimension 2, zero
weights): the tokenizer succeeds exactly on batches of strings, image
decoding succeeds exactly on non-empty byte lists. -/
def M0 : ExternalCLIP where
  dim := 2
  tokenize := fun args =>
    if args.all isStr then Except.ok (args.map (fun _ => [0]))
    else Except.error PyError.tokenizerError
  getTextFeatures := fun s tb => (tb.map (fun _ => [0, 0]), s)
  decodeImage := fun bs =>
    if bs.isEmpty then Except.error PyError.imageDecodeError
    else Except.ok bs
  processImage := fun img => img.map (fun n => (n : ℚ))
  getImageFeatures := fun s _ => ([[0, 0]], s)
  tokenize_str := by
    intro ts
    refine ⟨(ts.map Json.str).map (fun _ => [0]), ?_, by simp⟩
    have h : (ts.map Json.str).all isStr = true := by
      simp [List.all_eq_true, isStr]
    simp only [h, if_true]
  textFeatures_rows := by intro s tb; simp
  textFeatures_dim := by
    intro s tb r hr
    rw [List.mem_map] at hr
    obtain ⟨a, ha, rfl⟩ := hr
    rfl
  textFeatures_frame := by intro s tb h; rfl
  imageFeatures_rows := by intro s px; rfl
  imageFeatures_dim := by
    intro s px r hr
    simp at hr
    subst hr
    rfl
  imageFeatures_frame := by intro s px h; rfl

/-- A concrete initial torch state: gradients enabled, some weights. -/
def s0 : TorchState := { gradEnabled := true, modelData := [1, 2] }

/-! ## Helper lemmas -/

/-- A `torch.no_grad()` block leaves the state unchanged whenever its body
does so on gradient-disabled states: the flag is restored on exit. -/
theorem noGrad_frame {α : Type} (f : TorchState → α × TorchState)
    (s : TorchState) (h : ∀ st, st.gradEnabled = false → (f st).2 = st) :
    (noGrad f s).2 = s := by
  show { (f { s with gradEnabled := false }).2 with
    gradEnabled := s.gradEnabled } = s
  rw [h { s with gradEnabled := false } rfl]

/-- `get_text_embedding` leaves the process-wide torch state unchanged. -/
theorem get_text_embedding_state (M : ExternalCLIP) (text : Json)
    (s : TorchState) : (get_text_embedding M text s).2 = s := by
  unfold get_text_embedding
  cases hm : M.tokenize [text] with
  | error e => rfl
  | ok inputs =>
    exact noGrad_frame _ s (fun st hst => M.textFeatures_frame st inputs hst)

/-- `get_image_embedding` leaves the process-wide torch state unchanged. -/
theorem get_image_embedding_state (M : ExternalCLIP) (b : List ℕ)
    (s : TorchState) : (get_image_embedding M b s).2 = s := by
  unfold get_image_embedding
  cases hm : M.decodeImage b with
  | error e => rfl
  | ok img =>
    exact noGrad_frame _ s
      (fun st hst => M.imageFeatures_frame st (M.processImage img) hst)

/-- Canonical result of `get_text_embedding` on a string: it returns
`tolist()` of a tensor of shape (1, dim) — one row of `dim` floats — and
restores the state. -/
theorem get_text_embedding_str (M : ExternalCLIP) (t : String)
    (s : TorchState) :
    ∃ rows, get_text_embedding M (Json.str t) s
        = (Except.ok (tensor2ToJson rows), s)
      ∧ rows.length = 1 ∧ ∀ r ∈ rows, r.length = M.dim := by
  obtain ⟨tb, htb, hlen⟩ := M.tokenize_str [t]
  simp only [List.map_cons, List.map_nil] at htb
  refine ⟨(M.getTextFeatures { s with gradEnabled := false } tb).1,
    ?_, ?_, ?_⟩
  · unfold get_text_embedding
    rw [htb, Prod.ext_iff]
    exact ⟨rfl, noGrad_frame _ s (fun st hst => M.textFeatures_frame st tb hst)⟩
  · rw [M.textFeatures_rows]
    simpa using hlen
  · intro r hr
    exact M.textFeatures_dim _ tb r hr

/-- Canonical result of `get_image_embedding` on decodable bytes: a tensor
of shape (1, dim), state restored. -/
theorem get_image_embedding_ok (M : ExternalCLIP) (b : List ℕ)
    (img : List ℕ) (s : TorchState) (h : M.decodeImage b = Except.ok img) :
    ∃ rows, get_image_embedding M b s = (Except.ok (tensor2ToJson rows), s)
      ∧ rows.length = 1 ∧ ∀ r ∈ rows, r.length = M.dim := by
  refine ⟨(M.getImageFeatures { s with gradEnabled := false }
    (M.processImage img)).1, ?_, ?_, ?_⟩
  · unfold get_image_embedding
    rw [h, Prod.ext_iff]
    exact ⟨rfl, noGrad_frame _ s
      (fun st hst => M.imageFeatures_frame st (M.processImage img) hst)⟩
  · exact M.imageFeatures_rows _ _
  · intro r hr
    exact M.imageFeatures_dim _ _ r hr

/-- Rows of equal length have a constant length profile. -/
theorem map_length_eq_replicate {l : List (List ℚ)} {d : ℕ}
    (h : ∀ r ∈ l, r.length = d) :
    l.map List.length = List.replicate l.length d := by
  induction l with
  | nil => rfl
  | cons a t ih =>
    simp [h a (List.mem_cons_self a t),
      ih (fun r hr => h r (List.mem_cons_of_mem a hr)), List.replicate_succ]

/-- Whether a decoded JSON value is a number. -/
def isNum : Json → Bool
  | Json.num _ => true
  | _ => false

/-- The property C1 asserts of the embedding value: a flat JSON array all
of whose elements are numbers. -/
def flatFloatList : Json → Bool
  | Json.arr es => es.all isNum
  | _ => false

/-- The condition under which `embed_text` returns the error payload:
`body.get("text")` is missing or Python-falsy. -/
def textIsFalsy (fields : List (String × Json)) : Prop :=
  match pyGet fields "text" with
  | none => True
  | some v => falsy v = true

/-- A JSON value that is an object carrying exactly one of the keys
`"embedding"` and `"error"`. -/
def exactlyOneOf (j : Json) : Prop :=
  match j with
  | Json.obj fields =>
      (hasKey fields "embedding" = true ∧ hasKey fields "error" = false) ∨
      (hasKey fields "error" = true ∧ hasKey fields "embedding" = false)
  | _ => False

/-- Definitional unfolding of `embed_text` on a dict body. -/
theorem embed_text_obj (M : ExternalCLIP) (fields : List (String × Json))
    (s : TorchState) :
    embed_text M (some (Json.obj fields)) s =
      (match pyGet fields "text" with
       | none => (Except.ok errorPayload, s)
       | some text =>
         if falsy text then (Except.ok errorPayload, s)
         else ((get_text_embedding M text s).1.map
             (fun e => Json.obj [("embedding", e)]),
           (get_text_embedding M text s).2)) := rfl

/-- Result of `embed_text` on a body whose `"text"` is a non-empty string:
the wrapped `tolist()` of a (1, dim) tensor, state unchanged. -/
theorem embed_text_str (M : ExternalCLIP) (fields : List (String × Json))
    (t : String) (s : TorchState)
    (hg : pyGet fields "text" = some (Json.str t)) (hne : t ≠ "") :
    ∃ rows, embed_text M (some (Json.obj fields)) s
        = (Except.ok (Json.obj [("embedding", tensor2ToJson rows)]), s)
      ∧ rows.length = 1 ∧ ∀ r ∈ rows, r.length = M.dim := by
  obtain ⟨rows, hrun, hlen, hdim⟩ := get_text_embedding_str M t s
  refine ⟨rows, ?_, hlen, hdim⟩
  rw [embed_text_obj, hg]
  have hf : falsy (Json.str t) = false := by
    simp only [falsy, beq_eq_false_iff_ne, ne_eq]
    exact hne
  simp only [hf, Bool.false_eq_true, if_false, hrun, Except.map]

/-! ## Claims -/

/-- C4: `get_text_embedding` is deterministic — a second call with the
same string against the state left by the first call returns the identical
value (inference mutates nothing and the result is a function of the
model state and the input). -/
theorem get_text_embedding_two_runs (M : ExternalCLIP) (t : String)
    (s : TorchState) :
    (get_text_embedding M (Json.str t)
        ((get_text_embedding M (Json.str t) s).2)).1
      = (get_text_embedding M (Json.str t) s).1 := by
  rw [get_text_embedding_state M (Json.str t) s]

/-- C4 witness: two runs on the string `"cat"` in sequence. -/
theorem get_text_embedding_two_runs_app :
    (get_text_embedding M0 (Json.str "cat")
        ((get_text_embedding M0 (Json.str "cat") s0).2)).1
      = (get_text_embedding M0 (Json.str "cat") s0).1 :=
  get_text_embedding_two_runs M0 "cat" s0

/-- C5: when the uploaded bytes do not decode as an image, `embed_image`
propagates the decode exception uncaught and never returns an
`"embedding"` object (in particular no silent empty embedding). -/
theorem embed_image_decode_failure (M : ExternalCLIP) (b : List ℕ)
    (s : TorchState) (e : PyError) (h : M.decodeImage b = Except.error e) :
    (embed_image M b s).1 = Except.error e ∧
    ∀ j : Json, (embed_image M b s).1 ≠ Except.ok j := by
  have h1 : (embed_image M b s).1 = Except.error e := by
    unfold embed_image get_image_embedding
    simp only [h, Except.map]
  refine ⟨h1, fun j hj => ?_⟩
  rw [h1] at hj
  exact Except.noConfusion hj

/-- C5 witness: the concrete instance rejects the empty byte sequence. -/
theorem embed_image_decode_failure_app :
    (embed_image M0 [] s0).1 = Except.error PyError.imageDecodeError :=
  (embed_image_decode_failure M0 [] s0 PyError.imageDecodeError rfl).1

/-- C6: on a missing `"text"` key the error payload is returned as a
normal value, so it carries the same success status (200) as every
normally returned response — callers cannot tell error from success by
status alone. -/
theorem embed_text_missing_text_status (M : ExternalCLIP)
    (fields : List (String × Json)) (s : TorchState)
    (h : pyGet fields "text" = none) :
    (embed_text M (some (Json.obj fields)) s).1 = Except.ok errorPayload ∧
    httpStatusOf (embed_text M (some (Json.obj fields)) s).1 = 200 ∧
    ∀ (rb : Option Json) (s2 : TorchState) (j : Json),
      (embed_text M rb s2).1 = Except.ok j →
      httpStatusOf (embed_text M rb s2).1 = 200 := by
  have h1 : (embed_text M (some (Json.obj fields)) s).1
      = Except.ok errorPayload := by
    rw [embed_text_obj, h]
  refine ⟨h1, by rw [h1]; rfl, ?_⟩
  intro rb s2 j hj
  rw [hj]
  rfl

/-- C6 witness: a body with no `"text"` key at all. -/
theorem embed_text_missing_text_status_app :
    (embed_text M0 (some (Json.obj [])) s0).1 = Except.ok errorPayload ∧
    httpStatusOf (embed_text M0 (some (Json.obj [])) s0).1 = 200 :=
  ⟨(embed_text_missing_text_status M0 [] s0 rfl).1,
   (embed_text_missing_text_status M0 [] s0 rfl).2.1⟩

/-- C7: neither embedding function modifies the process-wide model state:
the forward passes run under `torch.no_grad()` and the torch state (the
gradient flag and the module-level model data) is exactly restored. -/
theorem embedding_calls_preserve_state (M : ExternalCLIP) (t : Json)
    (b : List ℕ) (s : TorchState) :
    (get_text_embedding M t s).2 = s ∧ (get_image_embedding M b s).2 = s :=
  ⟨get_text_embedding_state M t s, get_image_embedding_state M b s⟩

/-- C7 witness: a concrete text and a concrete image request. -/
theorem embedding_calls_preserve_state_app :
    (get_text_embedding M0 (Json.str "dog") s0).2 = s0 ∧
    (get_image_embedding M0 [3] s0).2 = s0 :=
  embedding_calls_preserve_state M0 (Json.str "dog") [3] s0

/-- C9: an unparseable request body makes `embed_text` raise the JSON
decode exception before any field check, so no payload of either kind is
returned. -/
theorem embed_text_unparseable_body (M : ExternalCLIP) (s : TorchState) :
    (embed_text M none s).1 = Except.error PyError.jsonDecodeError ∧
    ∀ j : Json, (embed_text M none s).1 ≠ Except.ok j := by
  refine ⟨rfl, fun j hj => ?_⟩
  exact Except.noConfusion hj

/-- C9 witness. -/
theorem embed_text_unparseable_body_app :
    (embed_text M0 none s0).1 = Except.error PyError.jsonDecodeError :=
  (embed_text_unparseable_body M0 s0).1

/-- C10: every value `embed_text` returns normally is an object carrying
exactly one of the keys `"embedding"` and `"error"`. -/
theorem embed_text_ok_exactly_one_key (M : ExternalCLIP) (rb : Option Json)
    (s : TorchState) (j : Json)
    (h : (embed_text M rb s).1 = Except.ok j) : exactlyOneOf j := by
  match rb with
  | none => exact Except.noConfusion h
  | some (Json.null) => exact Except.noConfusion h
  | some (Json.bool b) => exact Except.noConfusion h
  | some (Json.num q) => exact Except.noConfusion h
  | some (Json.str t) => exact Except.noConfusion h
  | some (Json.arr a) => exact Except.noConfusion h
  | some (Json.obj fields) =>
    rw [embed_text_obj] at h
    cases hg : pyGet fields "text" with
    | none =>
      rw [hg] at h
      have h2 : errorPayload = j := by injection h
      rw [← h2]
      exact Or.inr ⟨rfl, rfl⟩
    | some v =>
      rw [hg] at h
      have h2 : (if falsy v then (Except.ok errorPayload, s)
          else ((get_text_embedding M v s).1.map
              (fun e => Json.obj [("embedding", e)]),
            (get_text_embedding M v s).2)).1 = Except.ok j := h
      cases hf : falsy v with
      | true =>
        rw [hf, if_pos rfl] at h2
        have h3 : errorPayload = j := by injection h2
        rw [← h3]
        exact Or.inr ⟨rfl, rfl⟩
      | false =>
        rw [hf] at h2
        simp only [Bool.false_eq_true, if_false] at h2
        cases he : (get_text_embedding M v s).1 with
        | error e =>
          rw [he] at h2
          exact Except.noConfusion h2
        | ok emb =>
          rw [he] at h2
          have h3 : Json.obj [("embedding", emb)] = j := by injection h2
          rw [← h3]
          exact Or.inl ⟨rfl, rfl⟩

/-- C10 witness: the error payload side, evaluated on a concrete body. -/
theorem embed_text_ok_exactly_one_key_app : exactlyOneOf errorPayload :=
  embed_text_ok_exactly_one_key M0 (some (Json.obj [])) s0 errorPayload rfl

/-- C1 counterexample: on `{"text": "hi"}` the `"embedding"` value is
`[[0, 0]]` — `tolist()` of the (1, dim) tensor — whose element is itself a
list, not a number, so the field is not a flat sequence of floats. -/
theorem embed_text_embedding_not_flat :
    (embed_text M0 (some (Json.obj [("text", Json.str "hi")])) s0).1
        = Except.ok (Json.obj [("embedding",
            Json.arr [Json.arr [Json.num 0, Json.num 0]])]) ∧
    flatFloatList (Json.arr [Json.arr [Json.num 0, Json.num 0]]) = false :=
  ⟨rfl, rfl⟩

/-- C1 (amended): on a body whose `"text"` is a non-empty string, the
response is `{"embedding": [[float, ...]]}` — the `"embedding"` field is a
singleton list (the batch dimension of size one is retained) whose single
element is the row of `dim` floats. -/
theorem embed_text_embedding_singleton_row (M : ExternalCLIP)
    (fields : List (String × Json)) (t : String) (s : TorchState)
    (hg : pyGet fields "text" = some (Json.str t)) (hne : t ≠ "") :
    ∃ row : List ℚ, (embed_text M (some (Json.obj fields)) s).1
        = Except.ok (Json.obj [("embedding",
            Json.arr [Json.arr (row.map Json.num)])])
      ∧ row.length = M.dim := by
  obtain ⟨rows, hrun, hlen, hdim⟩ := embed_text_str M fields t s hg hne
  obtain ⟨row, hrow⟩ := List.length_eq_one.mp hlen
  subst hrow
  refine ⟨row, ?_, hdim row (by simp)⟩
  rw [hrun]
  rfl

/-- C1 witness: the amended statement at a concrete request. -/
theorem embed_text_embedding_singleton_row_app :
    ∃ row : List ℚ,
      (embed_text M0 (some (Json.obj [("text", Json.str "dog")])) s0).1
        = Except.ok (Json.obj [("embedding",
            Json.arr [Json.arr (row.map Json.num)])])
      ∧ row.length = M0.dim :=
  embed_text_embedding_singleton_row M0 [("text", Json.str "dog")] "dog" s0
    rfl (by decide)

/-- C2 counterexample: on `{"text": 0}` the error payload is returned even
though the `"text"` field is present and is not a string at all — in
particular not missing and not the empty text. -/
theorem embed_text_error_despite_present_text :
    (embed_text M0 (some (Json.obj [("text", Json.num 0)])) s0).1
        = Except.ok errorPayload ∧
    pyGet [("text", Json.num 0)] "text" = some (Json.num 0) ∧
    ∀ t : String, Json.num 0 ≠ Json.str t :=
  ⟨rfl, rfl, fun _ h => Json.noConfusion h⟩

/-- C2 (amended): the error payload is returned exactly when
`body.get("text")` is missing or Python-falsy (`null`, `false`, `0`, `""`,
`[]`, `{}`); for every body whose `"text"` is a non-empty string an
`"embedding"` object is returned instead. -/
theorem embed_text_error_iff_falsy (M : ExternalCLIP)
    (fields : List (String × Json)) (s : TorchState) :
    ((embed_text M (some (Json.obj fields)) s).1 = Except.ok errorPayload ↔
      textIsFalsy fields) ∧
    (∀ t : String, pyGet fields "text" = some (Json.str t) → t ≠ "" →
      ∃ emb : Json, (embed_text M (some (Json.obj fields)) s).1
        = Except.ok (Json.obj [("embedding", emb)])) := by
  constructor
  · rw [embed_text_obj]
    unfold textIsFalsy
    cases hg : pyGet fields "text" with
    | none => simp
    | some v =>
      cases hf : falsy v with
      | true => simp [hf]
      | false =>
        simp only [hf, Bool.false_eq_true, if_false]
        constructor
        · intro hcontra
          exfalso
          cases he : (get_text_embedding M v s).1 with
          | error e =>
            rw [he] at hcontra
            exact Except.noConfusion hcontra
          | ok emb =>
            rw [he] at hcontra
            have h1 : Json.obj [("embedding", emb)] = errorPayload := by
              injection hcontra
            have h3 : [(("embedding" : String), emb)]
                = [("error", Json.str "Text parameter is missing.")] := by
              injection h1
            have h2 : (("embedding" : String), emb)
                = ("error", Json.str "Text parameter is missing.") := by
              injection h3
            have h4 : "embedding" = "error" := congrArg Prod.fst h2
            exact absurd h4 (by decide)
        · intro hfv
          exact hfv.elim
  · intro t hg hne
    obtain ⟨rows, hrun, _, _⟩ := embed_text_str M fields t s hg hne
    exact ⟨tensor2ToJson rows, by rw [hrun]⟩

/-- C2 witness: the amended statement at a concrete request. -/
theorem embed_text_error_iff_falsy_app :
    ∃ emb : Json,
      (embed_text M0 (some (Json.obj [("text", Json.str "cat")])) s0).1
        = Except.ok (Json.obj [("embedding", emb)]) :=
  (embed_text_error_iff_falsy M0 [("text", Json.str "cat")] s0).2 "cat" rfl
    (by decide)

/-- C3: for a fixed model the embedding shape is constant across all valid
inputs of a given modality — any two texts yield result tensors of equal
length and equal row-length profile, and likewise any two decodable
images. -/
theorem embedding_dim_constant (M : ExternalCLIP) (t1 t2 : String)
    (b1 b2 : List ℕ) (i1 i2 : List ℕ) (s1 s2 s3 s4 : TorchState)
    (h1 : M.decodeImage b1 = Except.ok i1)
    (h2 : M.decodeImage b2 = Except.ok i2) :
    ∃ r1 r2 q1 q2 : List (List ℚ),
      (get_text_embedding M (Json.str t1) s1).1
          = Except.ok (tensor2ToJson r1) ∧
      (get_text_embedding M (Json.str t2) s2).1
          = Except.ok (tensor2ToJson r2) ∧
      r1.length = r2.length ∧ r1.map List.length = r2.map List.length ∧
      (get_image_embedding M b1 s3).1 = Except.ok (tensor2ToJson q1) ∧
      (get_image_embedding M b2 s4).1 = Except.ok (tensor2ToJson q2) ∧
      q1.length = q2.length ∧ q1.map List.length = q2.map List.length := by
  obtain ⟨r1, hr1, hl1, hd1⟩ := get_text_embedding_str M t1 s1
  obtain ⟨r2, hr2, hl2, hd2⟩ := get_text_embedding_str M t2 s2
  obtain ⟨q1, hq1, hm1, hdq1⟩ := get_image_embedding_ok M b1 i1 s3 h1
  obtain ⟨q2, hq2, hm2, hdq2⟩ := get_image_embedding_ok M b2 i2 s4 h2
  refine ⟨r1, r2, q1, q2, by rw [hr1], by rw [hr2], by rw [hl1, hl2], ?_,
    by rw [hq1], by rw [hq2], by rw [hm1, hm2], ?_⟩
  · rw [map_length_eq_replicate hd1, map_length_eq_replicate hd2, hl1, hl2]
  · rw [map_length_eq_replicate hdq1, map_length_eq_replicate hdq2,
      hm1, hm2]

/-- C3 witness: two concrete texts and two concrete decodable images. -/
theorem embedding_dim_constant_app :
    ∃ r1 r2 q1 q2 : List (List ℚ),
      (get_text_embedding M0 (Json.str "cat") s0).1
          = Except.ok (tensor2ToJson r1) ∧
      (get_text_embedding M0 (Json.str "airplane") s0).1
          = Except.ok (tensor2ToJson r2) ∧
      r1.length = r2.length ∧ r1.map List.length = r2.map List.length ∧
      (get_image_embedding M0 [5] s0).1 = Except.ok (tensor2ToJson q1) ∧
      (get_image_embedding M0 [7] s0).1 = Except.ok (tensor2ToJson q2) ∧
      q1.length = q2.length ∧ q1.map List.length = q2.map List.length :=
  embedding_dim_constant M0 "cat" "airplane" [5] [7] [5] [7] s0 s0 s0 s0
    rfl rfl

/-- C8: the missing-text check is a Python falsiness test of
`body.get("text")`: a missing key or any falsy value yields the constant
error payload, while every truthy value of any JSON type bypasses the
check and is forwarded unvalidated to `get_text_embedding`. -/
theorem embed_text_falsiness_check (M : ExternalCLIP)
    (fields : List (String × Json)) (s : TorchState) :
    (pyGet fields "text" = none →
      (embed_text M (some (Json.obj fields)) s).1 = Except.ok errorPayload) ∧
    (∀ v : Json, pyGet fields "text" = some v → falsy v = true →
      (embed_text M (some (Json.obj fields)) s).1
        = Except.ok errorPayload) ∧
    (∀ v : Json, pyGet fields "text" = some v → falsy v = false →
      embed_text M (some (Json.obj fields)) s
        = ((get_text_embedding M v s).1.map
            (fun e => Json.obj [("embedding", e)]),
          (get_text_embedding M v s).2)) := by
  refine ⟨?_, ?_, ?_⟩
  · intro h
    rw [embed_text_obj, h]
  · intro v hv hf
    rw [embed_text_obj, hv]
    simp [hf]
  · intro v hv hf
    rw [embed_text_obj, hv]
    simp [hf]

/-- C8 witness: a missing key, the falsy value `0`, and the truthy
non-string value `5`, each at a concrete request. -/
theorem embed_text_falsiness_check_app :
    (embed_text M0 (some (Json.obj [("k", Json.null)])) s0).1
        = Except.ok errorPayload ∧
    (embed_text M0 (some (Json.obj [("text", Json.num 0)])) s0).1
        = Except.ok errorPayload ∧
    embed_text M0 (some (Json.obj [("text", Json.num 5)])) s0
      = ((get_text_embedding M0 (Json.num 5) s0).1.map
          (fun e => Json.obj [("embedding", e)]),
        (get_text_embedding M0 (Json.num 5) s0).2) :=
  ⟨(embed_text_falsiness_check M0 [("k", Json.null)] s0).1 rfl,
   (embed_text_falsiness_check M0 [("text", Json.num 0)] s0).2.1
     (Json.num 0) rfl rfl,
   (embed_text_falsiness_check M0 [("text", Json.num 5)] s0).2.2
     (Json.num 5) rfl (by decide)⟩

end ClipAPI
